import Mathlib

/-!
Shallow embedding of the WebSocket client subsystem of
`lib/imgui-runtime/WebSocketSupport.cpp`.

The embedding translates, from the C++ source:
  - the URL parser `parseUrl` (including a model of `std::stoi` as used there),
  - the per-connection state machine `WebSocketInstance` with its
    event handlers (`handleConnected`, `handleMessage`, `handleWritable`,
    `handlePeerInitiatedClose`, `handleClosed`, `handleError`), its
    operations (`send`, `close`, `connect`) and `transitionToClosed`,
  - the manager lifecycle (`shutdown`, `pump`, `createInstance`),
  - the handler-slot assignment logic (`setHandler`, `WebSocketHostObject::set`),
  - the dispatch discipline (`dispatch` catches every handler exception).

Events dispatched to scripted code are modelled as an output trace; the
writes performed by `lws_write` are a second output trace. Transport
callbacks and local operations are merged into one `Op` type so that whole
reachable executions can be replayed with `run`.
-/

namespace WS

/-- ReadyState enumeration, `WebSocketInstance::ReadyState` in the source
(Connecting=0, Open=1, Closing=2, Closed=3). -/
inductive ReadyState
| Connecting
| Open
| Closing
| Closed
deriving DecidableEq, Repr

/-- Numeric value of a ready state, as `readyStateAsInt` returns it. -/
def ReadyState.toNat : ReadyState → Nat
| .Connecting => 0
| .Open => 1
| .Closing => 2
| .Closed => 3

/-- Events delivered to scripted code: the four event kinds with their
payloads as dispatched by `dispatch`/`dispatchMessageToJs`/
`dispatchCloseToJs`/`dispatchErrorToJs`. -/
inductive Event
| openEvt
| messageEvt (data : String)
| closeEvt (code : Nat) (reason : String) (wasClean : Bool)
| errorEvt (msg : String)
deriving DecidableEq, Repr

/-- Result of `parseUrl` in the source. The C++ `port` field is an `int`. -/
structure ParsedUrl where
  address : String
  path : String
  hostHeader : String
  port : Int
  secure : Bool
deriving DecidableEq, Repr

/-- Whitespace as classified by `isspace` in the C locale, used by the
`std::stoi` model below. -/
def isSpaceCh (c : Char) : Bool :=
  c = ' ' ∨ c = '\t' ∨ c = '\n' ∨ c = '\r' ∨ c = '\x0b' ∨ c = '\x0c'

/-- Drop leading whitespace, as `strtol` does before parsing. -/
def dropSpaces : List Char → List Char
| [] => []
| c :: cs => if isSpaceCh c then dropSpaces cs else c :: cs

/-- Split a list of chars at the leading run of decimal digits. -/
def takeDigits : List Char → List Char × List Char
| [] => ([], [])
| c :: cs =>
  if c.isDigit then
    let r := takeDigits cs
    (c :: r.1, r.2)
  else ([], c :: cs)

/-- Value of a digit string (most significant first), with accumulator. -/
def digitsToNat : List Char → Nat → Nat
| [], acc => acc
| c :: cs, acc => digitsToNat cs (acc * 10 + (c.toNat - '0'.toNat))

/-- Model of `std::stoi` on the given characters: skip leading whitespace,
read an optional sign and then a maximal run of decimal digits, ignoring
any trailing characters. `none` models a thrown exception: either
`invalid_argument` (no digits) or `out_of_range` (outside the range of a
32-bit `int`). Both exceptions are turned into the same URL error by
`parseUrl`, so one `none` suffices. -/
def stoiChars (cs : List Char) : Option Int :=
  let cs1 := dropSpaces cs
  let signAndRest : Int × List Char :=
    match cs1 with
    | '-' :: rest => (-1, rest)
    | '+' :: rest => (1, rest)
    | _ => (1, cs1)
  let ds := (takeDigits signAndRest.2).1
  if ds = [] then none
  else
    let v : Int := signAndRest.1 * (digitsToNat ds 0 : Int)
    if v < -2147483648 ∨ v > 2147483647 then none else some v

/-- Split at the first occurrence of `sep`, returning the characters before
and after it; `none` when `sep` does not occur (models `std::string::find`
plus the two `substr` calls). -/
def splitFirst (sep : Char) : List Char → Option (List Char × List Char)
| [] => none
| c :: cs =>
  if c = sep then some ([], cs)
  else (splitFirst sep cs).map (fun r => (c :: r.1, r.2))

/-- Split at the last occurrence of `sep` (models `std::string::rfind` plus
the two `substr` calls). -/
def splitLast (sep : Char) (cs : List Char) : Option (List Char × List Char) :=
  (splitFirst sep cs.reverse).map (fun r => (r.2.reverse, r.1.reverse))

/-- The characters of the scheme marker accepted first, `ws://`. -/
def wsScheme : List Char := ['w', 's', ':', '/', '/']

/-- The characters of the scheme marker accepted second, `wss://`. -/
def wssScheme : List Char := ['w', 's', 's', ':', '/', '/']

/-- Does the second list start with the first (models `rfind(scheme, 0) == 0`)? -/
def strBegins : List Char → List Char → Bool
| [], _ => true
| _ :: _, [] => false
| p :: ps, c :: cs => p == c && strBegins ps cs

/-- Final steps of `parseUrl`: the host check at the end of the function
(`result.address.empty()` raises the invalid-host error) and the defaulting
of an empty path to `/`, applied in both the with-port and without-port
branches exactly as in the source. -/
def finishParse (secure : Bool) (addr path authority : List Char) (port : Int) :
    Except String ParsedUrl :=
  if addr = [] then .error "WebSocket URL has invalid host"
  else
    let path1 := if path = [] then ['/'] else path
    .ok ⟨String.mk addr, String.mk path1, String.mk authority, port, secure⟩

/-- Body of `parseUrl` after the scheme has been stripped: split authority
from path at the first `/`, require a non-empty authority, split the
authority at its last `:` and parse the port with `stoiChars` when a colon
is present, else use the scheme default port. -/
def parseAuthority (secure : Bool) (defaultPort : Int) (rest : List Char) :
    Except String ParsedUrl :=
  let sp := splitFirst '/' rest
  let authority := match sp with | none => rest | some r => r.1
  let path : List Char := match sp with | none => ['/'] | some r => '/' :: r.2
  if authority = [] then .error "WebSocket URL missing host"
  else
    match splitLast ':' authority with
    | some r =>
      if r.2 = [] then .error "WebSocket URL has empty port"
      else
        match stoiChars r.2 with
        | none => .error "WebSocket URL has invalid port"
        | some p => finishParse secure r.1 path authority p
    | none => finishParse secure authority path authority defaultPort

/-- The URL parser on raw characters: scheme dispatch of `parseUrl`.
The `ws://` check comes first as in the source; a `wss://` URL does not
match it because its third character differs. -/
def parseUrlCh (cs : List Char) : Except String ParsedUrl :=
  if strBegins wsScheme cs then parseAuthority false 80 (cs.drop 5)
  else if strBegins wssScheme cs then parseAuthority true 443 (cs.drop 6)
  else .error "WebSocket URL must start with ws:// or wss://"

/-- `parseUrl` of the source: `Except.error` models the thrown
`std::runtime_error` with the same message. -/
def parseUrl (url : String) : Except String ParsedUrl :=
  parseUrlCh url.data

/-- State of one `WebSocketInstance`: url, parsed url (assigned by
`connect`), ready state, whether a live transport handle `wsi_` exists, the
outbound frame queue (payload text of each queued frame; the `LWS_PRE`
header reservation carries no information), and the close metadata. -/
structure Instance where
  url : String
  parsed : Option ParsedUrl
  state : ReadyState
  wsi : Bool
  outbound : List String
  closeReason : String
  closeCode : Nat
  peerInitiatedClose : Bool
  closeDispatched : Bool
deriving DecidableEq, Repr

/-- A freshly constructed instance, with the member initializers of
`WebSocketInstance`: state `Connecting`, null handle, empty queue,
close code 1000, empty reason, flags false. -/
def mkInstance (url : String) : Instance :=
  ⟨url, none, .Connecting, false, [], "", 1000, false, false⟩

/-- `transitionToClosed`: a no-op when already `Closed`; otherwise set the
state to `Closed` and dispatch the close event (the source also sets
`closeDispatched_`, via `dispatchCloseToJs`, on every path). -/
def transitionToClosed (inst : Instance) (code : Nat) (reason : String)
    (wasClean : Bool) : Instance × List Event :=
  if inst.state = .Closed then (inst, [])
  else ({inst with state := .Closed, closeDispatched := true},
        [.closeEvt code reason wasClean])

/-- `handleConnected`: store the live handle, move to `Open`, dispatch the
open event. (The source also requests a writable notification when the
queue is non-empty; notifications are inputs of this model.) -/
def handleConnected (inst : Instance) : Instance × List Event :=
  ({inst with wsi := true, state := .Open}, [.openEvt])

/-- `handleMessage`: ignore empty payloads, otherwise dispatch a message
event carrying the payload; no state change. -/
def handleMessage (inst : Instance) (data : String) : Instance × List Event :=
  if data = "" then (inst, [])
  else (inst, [.messageEvt data])

/-- `handleError`: dispatch the error event (substituting a default text
when the transport supplied an empty message), then force-close via
`transitionToClosed` with code 1006, the original message as reason, and
`wasClean = false`. -/
def handleError (inst : Instance) (msg : String) : Instance × List Event :=
  let errText := if msg = "" then "WebSocket connection error" else msg
  let r := transitionToClosed inst 1006 msg false
  (r.1, .errorEvt errText :: r.2)

/-- `handleWritable`: with a live handle and a non-empty queue, write the
front frame (`writeOk` says whether `lws_write` succeeds); on success pop
it, on failure route to `handleError` with the write-failed message.
Returns the instance, the frames actually written, and the events. -/
def handleWritable (inst : Instance) (writeOk : Bool) :
    Instance × List String × List Event :=
  match inst.outbound, inst.wsi with
  | f :: rest, true =>
    if writeOk then ({inst with outbound := rest}, [f], [])
    else
      let r := handleError inst "WebSocket write failed"
      (r.1, [], r.2)
  | _, _ => (inst, [], [])

/-- `handlePeerInitiatedClose`: record the peer code and reason, set the
peer-initiated flag, and move to `Closing` unconditionally. -/
def handlePeerInitiatedClose (inst : Instance) (code : Nat) (reason : String) :
    Instance :=
  {inst with peerInitiatedClose := true, closeCode := code,
             closeReason := reason, state := .Closing}

/-- `handleClosed`: a no-op when already `Closed`; otherwise drop the
handle, compute `wasClean = peerInitiatedClose || state == Closing`, and
transition to `Closed` with the recorded code and reason. -/
def handleClosed (inst : Instance) : Instance × List Event :=
  if inst.state = .Closed then (inst, [])
  else
    let wasClean := inst.peerInitiatedClose || decide (inst.state = .Closing)
    transitionToClosed {inst with wsi := false}
      inst.closeCode inst.closeReason wasClean

/-- `WebSocketInstance::send` for a string payload: raise the state error
unless `Connecting` or `Open`, otherwise append the frame to the outbound
queue. (The source also requests a writable notification when a handle
exists; notifications are inputs of this model.) -/
def Instance.send (inst : Instance) (data : String) : Except String Instance :=
  if inst.state ≠ .Open ∧ inst.state ≠ .Connecting then
    .error "WebSocket is not open"
  else .ok {inst with outbound := inst.outbound ++ [data]}

/-- `WebSocketInstance::close`: a no-op when already `Closing` or `Closed`;
otherwise clamp an out-of-range code to 1000, record code and reason, clear
the peer-initiated flag and move to `Closing`; with a live handle the
protocol close is issued and confirmation awaited, without one the instance
transitions directly to `Closed` with `wasClean = true`. -/
def Instance.close (inst : Instance) (code : Nat) (reason : String) :
    Instance × List Event :=
  if inst.state = .Closed ∨ inst.state = .Closing then (inst, [])
  else
    let code1 := if code < 1000 ∨ code > 4999 then 1000 else code
    let inst1 := {inst with closeCode := code1, closeReason := reason,
                            state := .Closing, peerInitiatedClose := false}
    if inst1.wsi then (inst1, [])
    else transitionToClosed inst1 code1 reason true

/-- `WebSocketInstance::connect`: parse the URL (the parsed result is
stored before any later check can throw), reject `wss://`, require a live
context, then issue the connection request (`transportOk` says whether
`lws_client_connect_via_info` returned a handle). The second component
models a thrown error message; the first is the instance as left behind. -/
def connect (inst : Instance) (hasContext : Bool) (transportOk : Bool) :
    Instance × Option String :=
  match parseUrl inst.url with
  | .error e => (inst, some e)
  | .ok p =>
    let inst1 := {inst with parsed := some p}
    if p.secure then (inst1, some "wss:// URLs are not supported in this build")
    else if ¬ hasContext then (inst1, some "WebSocket context unavailable")
    else if ¬ transportOk then
      (inst1, some "Failed to initiate WebSocket connection")
    else ({inst1 with wsi := true}, none)

/-- One operation on, or transport event for, a single instance, covering
every `websocketCallback` case that reaches the instance plus the two
script-visible mutating operations. -/
inductive Op
| evtConnected
| evtMessage (data : String)
| evtWritable (writeOk : Bool)
| evtPeerClose (code : Nat) (reason : String)
| evtClosed
| evtError (msg : String)
| opSend (data : String)
| opClose (code : Nat) (reason : String)
deriving DecidableEq, Repr

/-- Apply one operation or transport event to an instance, returning the
instance, the frames written, and the events dispatched. A `send` that
throws leaves the instance unchanged (the exception goes to the caller). -/
def step (inst : Instance) : Op → Instance × List String × List Event
| .evtConnected =>
  let r := handleConnected inst
  (r.1, [], r.2)
| .evtMessage d =>
  let r := handleMessage inst d
  (r.1, [], r.2)
| .evtWritable ok => handleWritable inst ok
| .evtPeerClose c r => (handlePeerInitiatedClose inst c r, [], [])
| .evtClosed =>
  let r := handleClosed inst
  (r.1, [], r.2)
| .evtError m =>
  let r := handleError inst m
  (r.1, [], r.2)
| .opSend d =>
  match Instance.send inst d with
  | .ok i => (i, [], [])
  | .error _ => (inst, [], [])
| .opClose c r =>
  let r1 := Instance.close inst c r
  (r1.1, [], r1.2)

/-- Replay a sequence of operations and transport events, concatenating
the writes and the dispatched events in order. -/
def run (inst : Instance) : List Op → Instance × List String × List Event
| [] => (inst, [], [])
| op :: ops =>
  let r := step inst op
  let rest := run r.1 ops
  (rest.1, r.2.1 ++ rest.2.1, r.2.2 ++ rest.2.2)

/-- Count the close events in a trace. -/
def countClose : List Event → Nat
| [] => 0
| .closeEvt _ _ _ :: es => countClose es + 1
| _ :: es => countClose es

/-- The manager lifecycle state that the claims need: whether `runtime_`
and `context_` of `WebSocketManager` are set. -/
structure Manager where
  hasRuntime : Bool
  hasContext : Bool
deriving DecidableEq, Repr

/-- `WebSocketManager::shutdown`: on both the early-return path (no
context) and the normal path, the context is gone and `runtime_` is reset
to null at the end. -/
def Manager.shutdown (_ : Manager) : Manager := ⟨false, false⟩

/-- `WebSocketManager::pump`: returns without raising when no context
exists, otherwise performs one non-blocking service iteration. The Bool
records whether a service iteration ran; `Except.error` would model a
thrown exception, and the source has no throwing path here. -/
def Manager.pump (m : Manager) : Except String Bool :=
  if m.hasContext then .ok true else .ok false

/-- `WebSocketManager::createInstance`: throws the runtime-not-initialized
error when `runtime_` is null, otherwise constructs an instance and runs
its connect path, propagating any connect error to the caller. -/
def Manager.createInstance (m : Manager) (url : String) (transportOk : Bool) :
    Except String Instance :=
  if ¬ m.hasRuntime then .error "WebSocket runtime is not initialized"
  else
    let r := connect (mkInstance url) m.hasContext transportOk
    match r.2 with
    | some e => .error e
    | none => .ok r.1

/-- A script value as `setHandler` discriminates it: undefined, null, a
function (identified by a tag), or any other value (a non-function object
or a non-object). -/
inductive JSValue
| undefined
| null
| func (f : Nat)
| otherVal
deriving DecidableEq, Repr

/-- `WebSocketInstance::setHandler`: undefined or null clears the slot, a
function replaces the slot, anything else throws (second component) before
the slot is touched. -/
def setHandler (value : JSValue) (slot : Option Nat) (name : String) :
    Option Nat × Option String :=
  match value with
  | .undefined => (none, none)
  | .null => (none, none)
  | .func f => (some f, none)
  | .otherVal => (slot, some (name ++ " must be a function"))

/-- The four handler slots of an instance, one per event kind. -/
structure Handlers where
  onOpen : Option Nat
  onMessage : Option Nat
  onClose : Option Nat
  onError : Option Nat
deriving DecidableEq, Repr

/-- `WebSocketHostObject::set`: route the four handler property names to
`setHandler` on the matching slot; every other property name is ignored. -/
def hostSet (h : Handlers) (prop : String) (v : JSValue) :
    Handlers × Option String :=
  if prop = "onopen" then
    let r := setHandler v h.onOpen "onopen"
    ({h with onOpen := r.1}, r.2)
  else if prop = "onmessage" then
    let r := setHandler v h.onMessage "onmessage"
    ({h with onMessage := r.1}, r.2)
  else if prop = "onclose" then
    let r := setHandler v h.onClose "onclose"
    ({h with onClose := r.1}, r.2)
  else if prop = "onerror" then
    let r := setHandler v h.onError "onerror"
    ({h with onError := r.1}, r.2)
  else (h, none)

/-- Behavioural handler slots for the dispatch-discipline claims: each slot
optionally holds a handler body, which receives the event and either
returns or throws (`Except.error`). -/
structure HandlerSet where
  onOpen : Option (Event → Except String Unit)
  onMessage : Option (Event → Except String Unit)
  onClose : Option (Event → Except String Unit)
  onError : Option (Event → Except String Unit)

/-- The slot that `dispatch` would be handed for a given event. -/
def handlerFor (hs : HandlerSet) : Event → Option (Event → Except String Unit)
| .openEvt => hs.onOpen
| .messageEvt _ => hs.onMessage
| .closeEvt _ _ _ => hs.onClose
| .errorEvt _ => hs.onError

/-- Outcome of one `dispatch` call: delivered, skipped for lack of a
handler, or the handler threw and the exception was caught and logged. -/
inductive DispatchRecord
| delivered (e : Event)
| exceptionLogged (e : Event) (msg : String)
| noHandler (e : Event)

/-- The event a dispatch record is about. -/
def recordEvent : DispatchRecord → Event
| .delivered e => e
| .exceptionLogged e _ => e
| .noHandler e => e

/-- `WebSocketInstance::dispatch`: a missing handler is skipped; a handler
is called and any exception it raises is caught and logged. The return
type has no error channel because the catch in the source is unconditional:
nothing a handler does can escape into the caller. -/
def dispatchOne (hs : HandlerSet) (e : Event) : DispatchRecord :=
  match handlerFor hs e with
  | none => .noHandler e
  | some f =>
    match f e with
    | .ok _ => .delivered e
    | .error msg => .exceptionLogged e msg

/-- Replay a sequence of operations and transport events with handlers
attached: the state transitions of `step` run exactly as without handlers
(every mutation in the source happens outside the protected `dispatch`
call), and each event produced is dispatched in order. -/
def runH (hs : HandlerSet) (inst : Instance) :
    List Op → Instance × List String × List DispatchRecord
| [] => (inst, [], [])
| op :: ops =>
  let r := step inst op
  let rest := runH hs r.1 ops
  (rest.1, r.2.1 ++ rest.2.1, (r.2.2).map (dispatchOne hs) ++ rest.2.2)

/-- A concrete instance freshly returned by a successful `connect` on
`ws://h`: state `Connecting` with a live transport handle. -/
def iConn : Instance := (connect (mkInstance "ws://h") true true).1

/-- A concrete instance in state `Open`, as after `handleConnected`. -/
def iOpen : Instance := (handleConnected iConn).1

/-- A concrete instance in state `Closed`. -/
def iClosed : Instance := {iOpen with state := .Closed, wsi := false}

/-! Helper lemmas, shared between the claim proofs. -/

theorem toNat_le_three (s : ReadyState) : s.toNat ≤ 3 := by
  cases s <;> decide

theorem recordEvent_dispatchOne (hs : HandlerSet) (e : Event) :
    recordEvent (dispatchOne hs e) = e := by
  unfold dispatchOne
  cases handlerFor hs e with
  | none => rfl
  | some f => cases h : f e <;> simp [h, recordEvent]

theorem map_recordEvent_dispatch (hs : HandlerSet) (l : List Event) :
    List.map (recordEvent ∘ dispatchOne hs) l = l := by
  induction l with
  | nil => rfl
  | cons e es ih => simp [Function.comp, recordEvent_dispatchOne, ih]

theorem countClose_append (a b : List Event) :
    countClose (a ++ b) = countClose a + countClose b := by
  induction a with
  | nil => simp [countClose]
  | cons e es ih =>
    cases e <;> (simp [countClose, ih]; try omega)

theorem splitFirst_of_not_mem (c : Char) (l : List Char) (h : c ∉ l) :
    splitFirst c l = none := by
  induction l with
  | nil => rfl
  | cons x xs ih =>
    simp only [List.mem_cons, not_or] at h
    have hx : ¬ (x = c) := fun he => h.1 he.symm
    simp [splitFirst, hx, ih h.2]

theorem splitFirst_append_cons (c : Char) (a b : List Char) (h : c ∉ a) :
    splitFirst c (a ++ c :: b) = some (a, b) := by
  induction a with
  | nil => simp [splitFirst]
  | cons x xs ih =>
    simp only [List.mem_cons, not_or] at h
    have hx : ¬ (x = c) := fun he => h.1 he.symm
    simp [splitFirst, hx, ih h.2]

theorem splitLast_append_cons (c : Char) (h p : List Char) (hc : c ∉ p) :
    splitLast c (h ++ c :: p) = some (h, p) := by
  unfold splitLast
  rw [show (h ++ c :: p).reverse = p.reverse ++ c :: h.reverse by simp]
  rw [splitFirst_append_cons c _ _ (by simpa using hc)]
  simp

theorem splitLast_of_not_mem (c : Char) (l : List Char) (h : c ∉ l) :
    splitLast c l = none := by
  unfold splitLast
  rw [splitFirst_of_not_mem c _ (by simpa using h)]
  rfl

/-! Claim theorems. -/

/-- C1, counterexample: a transport error while `Open` carrying the message
`boom` dispatches the error event followed by a close event whose reason is
`boom`, not the empty string demanded by the claim. -/
theorem c1_counterexample :
    (handleError iOpen "boom").2 =
      [Event.errorEvt "boom", Event.closeEvt 1006 "boom" false] ∧
    "boom" ≠ "" := by
  constructor
  · rfl
  · decide

/-- C1, amended: for every instance in state `Connecting` or `Open` with any
outbound queue contents, a transport error dispatches the error event
carrying the message (defaulted when empty) and then exactly one close
event with code 1006, reason equal to the transport error message, and
`wasClean = false`, and the state becomes `Closed`. -/
theorem c1_error_close_amended (inst : Instance) (msg : String)
    (h : inst.state = .Connecting ∨ inst.state = .Open) :
    handleError inst msg =
      ({inst with state := .Closed, closeDispatched := true},
       [Event.errorEvt (if msg = "" then "WebSocket connection error" else msg),
        Event.closeEvt 1006 msg false]) := by
  have hne : inst.state ≠ .Closed := by
    rcases h with h | h <;> simp [h]
  simp [handleError, transitionToClosed, hne]

/-- C1, witness: the amended theorem applied at the concrete open instance
and the message `boom`. -/
theorem c1_error_close_amended_witness :
    handleError iOpen "boom" =
      ({iOpen with state := .Closed, closeDispatched := true},
       [Event.errorEvt "boom", Event.closeEvt 1006 "boom" false]) := by
  have h := c1_error_close_amended iOpen "boom" (Or.inr rfl)
  simpa using h

/-- C2, counterexample: after `shutdown()`, `pump()` returns without
raising anything and without performing a service iteration; it is exactly
the silent no-op the claim rules out. -/
theorem c2_counterexample :
    (Manager.shutdown ⟨true, true⟩).pump = .ok false := by
  rfl

/-- C2, amended: after `shutdown()` has destroyed the transport context,
every call to `createInstance` fails fast with the context-unavailable
error (the runtime-not-initialized message), while every call to `pump()`
is a silent no-op: it raises nothing and performs no service iteration. -/
theorem c2_after_shutdown (m : Manager) (url : String) (ok : Bool) :
    (m.shutdown).createInstance url ok =
      .error "WebSocket runtime is not initialized" ∧
    (m.shutdown).pump = .ok false := by
  constructor <;> rfl

/-- C4: the outbound queue is strict FIFO and each writable notification
drains at most one frame: every `handleWritable` performs at most one
write; with a live handle and `x` at the front of the queue a successful
writable notification writes exactly `x` and pops exactly it; and the
concrete scenario send(a), send(b) while `Connecting`, then
transport-established, then two writable notifications performs exactly the
two single-frame writes `a` then `b` in that order. -/
theorem c4_fifo_single_drain :
    (∀ (inst : Instance) (ok : Bool), (handleWritable inst ok).2.1.length ≤ 1) ∧
    (∀ (inst : Instance) (x : String) (rest : List String),
      handleWritable {inst with wsi := true, outbound := x :: rest} true =
        ({inst with wsi := true, outbound := rest}, [x], [])) ∧
    (run iConn [.opSend "a", .opSend "b", .evtConnected,
                .evtWritable true, .evtWritable true]).2.1 = ["a", "b"] := by
  refine ⟨?_, ?_, ?_⟩
  · intro inst ok
    unfold handleWritable
    cases h1 : inst.outbound with
    | nil => simp
    | cons f rest =>
      cases h2 : inst.wsi <;> simp
      by_cases hok : ok = true <;> simp [hok, handleError]
  · intro inst x rest
    simp [handleWritable]
  · rfl

/-- C5: for every instance in a non-Closed state, peer-initiated close with
code 1001 and reason `bye` followed by transport-closed produces exactly
one close event with payload 1001, `bye`, `wasClean = true`; in general the
transport-closed confirmation dispatches one close event whose `wasClean`
equals `peerInitiated || priorState == Closing`; and a transport-closed
event arriving while already `Closed` is an idempotent no-op. -/
theorem c5_peer_close_confirmation (inst instC : Instance)
    (h : inst.state ≠ .Closed) (hC : instC.state = .Closed) :
    (run inst [.evtPeerClose 1001 "bye", .evtClosed]).2.2 =
      [Event.closeEvt 1001 "bye" true] ∧
    (handleClosed inst).2 =
      [Event.closeEvt inst.closeCode inst.closeReason
        (inst.peerInitiatedClose || decide (inst.state = .Closing))] ∧
    handleClosed instC = (instC, []) := by
  refine ⟨?_, ?_, ?_⟩
  · simp [run, step, handlePeerInitiatedClose, handleClosed, transitionToClosed]
  · simp [handleClosed, transitionToClosed, h]
  · simp [handleClosed, hC]

/-- C5, witness: the theorem applied at the concrete open instance and the
concrete closed instance. -/
theorem c5_peer_close_confirmation_witness :
    (run iOpen [.evtPeerClose 1001 "bye", .evtClosed]).2.2 =
      [Event.closeEvt 1001 "bye" true] ∧
    handleClosed iClosed = (iClosed, []) := by
  have h := c5_peer_close_confirmation iOpen iClosed (by decide) (by decide)
  exact ⟨h.1, h.2.2⟩

/-- C8: `close` is idempotent: a call while already `Closing` or `Closed`
returns the instance unchanged with no event and records no new code or
reason; and calling `close` twice in a row from `Connecting` or `Open`
leaves the second call a no-op and fires exactly one close event over the
whole lifetime (counting the eventual transport-closed confirmation). -/
theorem c8_close_idempotent (inst instCC : Instance) (c c2 : Nat)
    (r r2 : String)
    (h : inst.state = .Connecting ∨ inst.state = .Open)
    (hCC : instCC.state = .Closing ∨ instCC.state = .Closed) :
    Instance.close instCC c r = (instCC, []) ∧
    Instance.close (Instance.close inst c r).1 c2 r2 =
      ((Instance.close inst c r).1, []) ∧
    countClose ((Instance.close inst c r).2 ++
      (handleClosed (Instance.close inst c r).1).2) = 1 := by
  have hne : ¬ (inst.state = .Closed ∨ inst.state = .Closing) := by
    rcases h with h | h <;> simp [h]
  refine ⟨?_, ?_, ?_⟩
  · rcases hCC with h1 | h1 <;> simp [Instance.close, h1]
  · cases hw : inst.wsi <;>
      simp [Instance.close, hne, hw, transitionToClosed, countClose]
  · cases hw : inst.wsi <;>
      simp [Instance.close, hne, hw, transitionToClosed, handleClosed,
            countClose, countClose_append]

/-- C8, witness: the theorem applied at the concrete connecting instance
(with a live handle) and the concrete closed instance. -/
theorem c8_close_idempotent_witness :
    Instance.close iClosed 1000 "" = (iClosed, []) ∧
    Instance.close (Instance.close iConn 1000 "").1 1000 "" =
      ((Instance.close iConn 1000 "").1, []) ∧
    countClose ((Instance.close iConn 1000 "").2 ++
      (handleClosed (Instance.close iConn 1000 "").1).2) = 1 := by
  exact c8_close_idempotent iConn iClosed 1000 1000 "" ""
    (Or.inl rfl) (Or.inr rfl)

/-- C9: handler exceptions are isolated: replaying any sequence of
operations and transport events with any handlers attached (throwing or
not) yields exactly the instance state and the writes of the pure replay,
every generated event receives a dispatch attempt in order (an exception
never aborts delivery of subsequent events), the dispatch outcome type has
no error channel (nothing propagates out of `dispatch`), and the final
instance state is independent of which handlers are attached. -/
theorem c9_dispatch_isolation (hs hs2 : HandlerSet) (inst : Instance)
    (ops : List Op) :
    (runH hs inst ops).1 = (run inst ops).1 ∧
    (runH hs inst ops).2.1 = (run inst ops).2.1 ∧
    ((runH hs inst ops).2.2).map recordEvent = (run inst ops).2.2 ∧
    (runH hs inst ops).1 = (runH hs2 inst ops).1 := by
  induction ops generalizing inst with
  | nil => simp [run, runH]
  | cons op ops ih =>
    obtain ⟨ih1, ih2, ih3, ih4⟩ := ih (step inst op).1
    refine ⟨?_, ?_, ?_, ?_⟩
    · simp [run, runH, ih1]
    · simp [run, runH, ih2]
    · simp [run, runH, ih3, map_recordEvent_dispatch]
    · simp only [runH]
      simp [ih4]

/-- C10: handler slot assignment: undefined and null clear the slot, a
function replaces the previous value, and any other value raises the
must-be-a-function error while leaving the slot unchanged, both at the
`setHandler` level and through the host object property setter. -/
theorem c10_setHandler_assignment (slot : Option Nat) (f : Nat)
    (name : String) (h : Handlers) :
    setHandler .undefined slot name = (none, none) ∧
    setHandler .null slot name = (none, none) ∧
    setHandler (.func f) slot name = (some f, none) ∧
    setHandler .otherVal slot name =
      (slot, some (name ++ " must be a function")) ∧
    (hostSet h "onopen" .otherVal).1 = h ∧
    (hostSet h "onopen" .otherVal).2 = some "onopen must be a function" := by
  refine ⟨rfl, rfl, rfl, rfl, rfl, rfl⟩

/-- C3, counterexample: on a connecting instance with a live handle, a
local `close()` moves the state to `Closing`, and a subsequent
transport-established event moves it back to `Open`: the numeric
ReadyState decreases from 2 to 1 on a non-error transition. -/
theorem c3_counterexample :
    (step iConn (.opClose 1000 "")).1.state = .Closing ∧
    (step (step iConn (.opClose 1000 "")).1 .evtConnected).1.state = .Open := by
  constructor <;> rfl

/-- C3, amended: across every single operation or transport event the
numeric ReadyState value never decreases, provided a transport-established
event is only delivered while `Connecting` or `Open` and a peer-initiated
close only while not `Closed`; without those provisos the code lets
transport-established force `Open` even from `Closing` or `Closed`, and
peer-initiated close force `Closing` even from `Closed` (the error path
jumps to `Closed`, which never decreases the value). -/
theorem c3_monotone_amended (inst : Instance) (op : Op)
    (hguard : match op with
      | .evtConnected => inst.state = .Connecting ∨ inst.state = .Open
      | .evtPeerClose _ _ => inst.state ≠ .Closed
      | _ => True) :
    inst.state.toNat ≤ (step inst op).1.state.toNat := by
  cases op with
  | evtConnected =>
    have hres : (step inst .evtConnected).1.state = .Open := rfl
    rw [hres]
    rcases hguard with h | h <;> simp [h, ReadyState.toNat]
  | evtMessage d =>
    by_cases hd : d = "" <;> simp [step, handleMessage, hd]
  | evtWritable ok =>
    rcases h1 : inst.outbound with _ | ⟨f, rest⟩
    · simp [step, handleWritable, h1]
    · cases h2 : inst.wsi
      · simp [step, handleWritable, h1, h2]
      · by_cases hok : ok = true
        · simp [step, handleWritable, h1, h2, hok]
        · by_cases hcl : inst.state = .Closed
          · simp [step, handleWritable, h1, h2, hok, handleError,
                  transitionToClosed, hcl]
          · simp [step, handleWritable, h1, h2, hok, handleError,
                  transitionToClosed, hcl]
            exact toNat_le_three _
  | evtPeerClose c r =>
    have hres : (step inst (.evtPeerClose c r)).1.state = .Closing := rfl
    rw [hres]
    cases hs : inst.state <;> simp_all [ReadyState.toNat]
  | evtClosed =>
    by_cases hcl : inst.state = .Closed
    · simp [step, handleClosed, hcl]
    · simp [step, handleClosed, hcl, transitionToClosed]
      exact toNat_le_three _
  | evtError m =>
    by_cases hcl : inst.state = .Closed
    · simp [step, handleError, transitionToClosed, hcl]
    · simp [step, handleError, transitionToClosed, hcl]
      exact toNat_le_three _
  | opSend d =>
    by_cases hs : inst.state ≠ .Open ∧ inst.state ≠ .Connecting <;>
      simp [step, Instance.send, hs]
  | opClose c r =>
    by_cases h1 : inst.state = .Closed ∨ inst.state = .Closing
    · simp [step, Instance.close, h1]
    · cases h2 : inst.wsi
      · simp [step, Instance.close, h1, h2, transitionToClosed]
        exact toNat_le_three _
      · simp [step, Instance.close, h1, h2]
        push_neg at h1
        cases hs : inst.state <;> simp_all [ReadyState.toNat]

/-- C3, witness: the amended theorem applied to the concrete connecting
instance receiving the transport-established event. -/
theorem c3_monotone_amended_witness :
    iConn.state.toNat ≤ (step iConn .evtConnected).1.state.toNat :=
  c3_monotone_amended iConn .evtConnected (Or.inl rfl)

/-- C6, counterexample: the port substrings `80x`, `-1` and `70000` are all
accepted by the parser (via the leading-integer semantics of `std::stoi`),
yielding ports 80, -1 and 70000; the last two are not valid 16-bit values,
and `80x`, `-1` do not raise the UrlError the claim demands. -/
theorem c6_counterexample :
    parseUrl "ws://h:80x" = .ok ⟨"h", "/", "h:80x", 80, false⟩ ∧
    parseUrl "ws://h:-1" = .ok ⟨"h", "/", "h:-1", -1, false⟩ ∧
    parseUrl "ws://h:70000" = .ok ⟨"h", "/", "h:70000", 70000, false⟩ ∧
    (65535 : Int) < 70000 ∧ (-1 : Int) < 0 := by
  refine ⟨rfl, rfl, rfl, by decide, by decide⟩

/-- C6, amended: for every authority `h:p` (no slash; last colon separates
host from port because `p` has no colon), the parser raises UrlError
exactly when `p` is empty or `std::stoi` fails on it, that is when `p` has
no leading integer after optional whitespace and sign, or that integer
overflows a 32-bit int; trailing non-numeric characters are ignored and
the accepted value (possibly negative or above 65535) is stored as-is, so
successfully parsed ports need not be valid 16-bit values. -/
theorem c6_port_amended (h p : List Char) (h1 : h ≠ []) (h2 : '/' ∉ h)
    (h3 : '/' ∉ p) (h4 : ':' ∉ p) :
    parseUrl (String.mk (wsScheme ++ (h ++ ':' :: p))) =
      (if p = [] then .error "WebSocket URL has empty port"
       else
         match stoiChars p with
         | none => .error "WebSocket URL has invalid port"
         | some v =>
           .ok ⟨String.mk h, "/", String.mk (h ++ ':' :: p), v, false⟩) := by
  show parseUrlCh (wsScheme ++ (h ++ ':' :: p)) = _
  have e1 : strBegins wsScheme (wsScheme ++ (h ++ ':' :: p)) = true := rfl
  have e2 : (wsScheme ++ (h ++ ':' :: p)).drop 5 = h ++ ':' :: p := rfl
  have hsl : '/' ∉ h ++ ':' :: p := by
    intro hm
    rcases List.mem_append.mp hm with hm | hm
    · exact h2 hm
    · rcases List.mem_cons.mp hm with hm | hm
      · exact absurd hm (by decide)
      · exact h3 hm
  have hs1 : splitFirst '/' (h ++ ':' :: p) = none :=
    splitFirst_of_not_mem _ _ hsl
  have hs2 : splitLast ':' (h ++ ':' :: p) = some (h, p) :=
    splitLast_append_cons _ _ _ h4
  have hne : h ++ ':' :: p ≠ [] := by simp
  have hslash : String.mk ['/'] = "/" := rfl
  have hstep : parseUrlCh (wsScheme ++ (h ++ ':' :: p)) =
      parseAuthority false 80 (h ++ ':' :: p) := by
    simp [parseUrlCh, e1, e2]
  have hkey : parseAuthority false 80 (h ++ ':' :: p) =
      (if p = [] then Except.error "WebSocket URL has empty port"
       else
         match stoiChars p with
         | none => Except.error "WebSocket URL has invalid port"
         | some v => finishParse false h ['/'] (h ++ ':' :: p) v) := by
    simp only [parseAuthority, hs1, hs2, hne]
    simp
  rw [hstep, hkey]
  by_cases hpe : p = []
  · rw [if_pos hpe, if_pos hpe]
  · rw [if_neg hpe, if_neg hpe]
    cases hst : stoiChars p with
    | none => rfl
    | some v => simp [finishParse, h1, hslash]

/-- C6, witness: the amended theorem applied at host `h`, port substring
`80`, where the parse succeeds with port 80. -/
theorem c6_port_amended_witness :
    parseUrl "ws://h:80" = .ok ⟨"h", "/", "h:80", 80, false⟩ := by
  have hthm := c6_port_amended ['h'] ['8', '0']
    (by decide) (by decide) (by decide) (by decide)
  simpa using hthm

/-- C7, counterexample: the URL `wss://` begins with `wss://` yet parsing
raises the missing-host UrlError, so not every URL beginning with `wss://`
parses successfully. -/
theorem c7_counterexample :
    parseUrl "wss://" = .error "WebSocket URL missing host" := by
  rfl

/-- C7, amended: every URL `wss://host` with a non-empty host containing
no slash and no colon parses successfully (secure, default port 443, path
`/`) without UrlError, and a subsequent `connect()` on that instance
raises the not-supported StateError synchronously while leaving the
ReadyState unchanged. -/
theorem c7_wss_amended (h : List Char) (h1 : h ≠ []) (h2 : '/' ∉ h)
    (h3 : ':' ∉ h) :
    parseUrl (String.mk (wssScheme ++ h)) =
      .ok ⟨String.mk h, "/", String.mk h, 443, true⟩ ∧
    (connect (mkInstance (String.mk (wssScheme ++ h))) true true).2 =
      some "wss:// URLs are not supported in this build" ∧
    (connect (mkInstance (String.mk (wssScheme ++ h))) true true).1.state =
      (mkInstance (String.mk (wssScheme ++ h))).state := by
  have e1 : strBegins wsScheme (wssScheme ++ h) = false := rfl
  have e2 : strBegins wssScheme (wssScheme ++ h) = true := rfl
  have e3 : (wssScheme ++ h).drop 6 = h := rfl
  have hs1 : splitFirst '/' h = none := splitFirst_of_not_mem _ _ h2
  have hs2 : splitLast ':' h = none := splitLast_of_not_mem _ _ h3
  have hslash : String.mk ['/'] = "/" := rfl
  have hp : parseUrl (String.mk (wssScheme ++ h)) =
      .ok ⟨String.mk h, "/", String.mk h, 443, true⟩ := by
    show parseUrlCh (wssScheme ++ h) = _
    simp [parseUrlCh, e1, e2, e3, parseAuthority, hs1, hs2, h1,
          finishParse, hslash]
  refine ⟨hp, ?_, ?_⟩
  · simp [connect, mkInstance, hp]
  · simp [connect, mkInstance, hp]

/-- C7, witness: the amended theorem applied at host `h`, so the URL
`wss://h` parses with port 443 and connect raises the StateError without
changing the state. -/
theorem c7_wss_amended_witness :
    parseUrl "wss://h" = .ok ⟨"h", "/", "h", 443, true⟩ ∧
    (connect (mkInstance "wss://h") true true).2 =
      some "wss:// URLs are not supported in this build" ∧
    (connect (mkInstance "wss://h") true true).1.state =
      ReadyState.Connecting := by
  have hthm := c7_wss_amended ['h'] (by decide) (by decide) (by decide)
  exact ⟨hthm.1, hthm.2.1, hthm.2.2⟩

end WS
